import Mathlib

/-!
Shallow embedding of the CNC factory simulator (`Untitled-1.py`): the
per-cycle engine, the classification cascade `classify_state`, the KG
triple lookup of `send_to_KG`, the automatic tool changer, and the JSON
payload assembly of `SimulationMessage.to_json`.

Python values appearing in the dictionaries are modelled by `Value`
(numbers as exact rationals, strings, and the 3-axis position mapping);
Python dicts are association lists with insertion-ordered,
last-write-wins update; a dict access that would raise (KeyError, or a
comparison on a non-numeric value, i.e. TypeError) is modelled by the
`Option` monad returning `none`.
-/

/-- The 3-axis position mapping `{"X": _, "Y": _, "Z": _}`. -/
structure Position where
  X : ℚ
  Y : ℚ
  Z : ℚ
deriving DecidableEq

/-- A Python value stored in one of the simulator's dictionaries. -/
inductive Value where
  | VNum : ℚ → Value
  | VStr : String → Value
  | VPos : Position → Value
deriving DecidableEq

/-- A Python dict: insertion-ordered association list (keys unique when
built by `dUpdate`). -/
abbrev Dict := List (String × Value)

/-- Dict indexing / `.get`: first binding of the key, if any. -/
def dlookup (k : String) : Dict → Option Value
  | [] => none
  | (k₁, v) :: t => if k₁ = k then some v else dlookup k t

/-- Assignment `d[k] = v` for a single key: replace in place if the key is present
(keeping its position, as Python dicts do), else append. -/
def dUpdate (d : Dict) (k : String) (v : Value) : Dict :=
  if (dlookup k d).isSome then
    d.map (fun p => if p.1 = k then (k, v) else p)
  else
    d ++ [(k, v)]

/-- Insert a list of bindings one by one (`dict.update` / `{**a, **b}`). -/
def dInsertAll (d : Dict) : List (String × Value) → Dict
  | [] => d
  | (k, v) :: t => dInsertAll (dUpdate d k v) t

/-- Fold `dict.update` over several dicts (the machine-data merge loop). -/
def mergeDicts (ds : List Dict) : Dict :=
  ds.foldl dInsertAll []

/-- Numeric access `sensors[k]` used in a comparison: `none` when the key
is absent (KeyError) or the value is not a number (TypeError). -/
def getNum (d : Dict) (k : String) : Option ℚ :=
  match dlookup k d with
  | some (.VNum q) => some q
  | _ => none

/-- Access `sensors[k]` expecting the position mapping. -/
def getPos (d : Dict) (k : String) : Option Position :=
  match dlookup k d with
  | some (.VPos p) => some p
  | _ => none

/-- Python truthiness of a stored value (`if machine.get("tool_id") and ...`). -/
def truthy : Value → Bool
  | .VNum q => q ≠ 0
  | .VStr s => s ≠ ""
  | .VPos _ => true

/-- Condition `machine.get("tool_id") and machine["tool_id"] not in [1, 2, 3]`. -/
def tool_change_cond (machine : Dict) : Bool :=
  match dlookup "tool_id" machine with
  | none => false
  | some tv => truthy tv && !(decide (tv ∈ [Value.VNum 1, Value.VNum 2, Value.VNum 3]))

/-- Constant `EXPECTED_POSITION = {"X": 50.0, "Y": 30.0, "Z": 10.0}`. -/
def EXPECTED_POSITION : Position := ⟨50, 30, 10⟩

/-- Constant `TOLERANCE_WARNING = 5.0`. -/
def TOLERANCE_WARNING : ℚ := 5

/-- Constant `TOLERANCE_CRITICAL = 10.0`. -/
def TOLERANCE_CRITICAL : ℚ := 10

/-- Expression `max(abs(pos[axis] - EXPECTED_POSITION[axis]) for axis in ["X","Y","Z"])`. -/
def max_dev (pos : Position) : ℚ :=
  max |pos.X - EXPECTED_POSITION.X|
    (max |pos.Y - EXPECTED_POSITION.Y| |pos.Z - EXPECTED_POSITION.Z|)

/-- Embeds `classify_state(sensors, machine)`: the final 10-rule decision
cascade, translated branch for branch from the source; `none` models a
raised exception (missing or ill-typed field at the moment the source
would access it). -/
def classify_state (sensors machine : Dict) : Option String :=
  match getNum sensors "spindle_temp" with
  | none => none
  | some t =>
    if 75 < t ∧ t ≤ 90 then some "Maintenance_KG:Possible_Overheating"
    else if 90 < t then
      match getNum sensors "power_draw" with
      | none => none
      | some p =>
        if 350 < p ∧ p < 400 then some "Cyberattack_KG:Possible_Glitch/Firmware"
        else if 400 ≤ p then some "Cyberattack_KG:Likely_Glitch/Firmware"
        else some "Maintenance_KG:Spindle_Overheat"
    else
      match getNum sensors "vibration" with
      | none => none
      | some v =>
        if 1.5 < v ∧ v ≤ 3.5 then some "Cyberattack_KG:Possible_Vibration_Sabotage"
        else if 3.5 < v then some "Cyberattack_KG:Likely_Vibration_Sabotage"
        else
          match getNum sensors "power_draw" with
          | none => none
          | some p =>
            if 350 ≤ p ∧ p < 400 then some "PowerDraw_KG:Possible_Elevated_Load"
            else if 400 ≤ p then some "PowerDraw_KG:High_Power_Consumption"
            else
              match getPos sensors "position" with
              | none => none
              | some pos =>
                if TOLERANCE_WARNING < max_dev pos ∧ max_dev pos ≤ TOLERANCE_CRITICAL then
                  some "Maintenance_KG:Minor_Position_Drift"
                else if TOLERANCE_CRITICAL < max_dev pos then
                  some "Cyberattack_KG:Major_Position_Change"
                else if tool_change_cond machine then
                  some "Maintenance_KG:Tool_Change"
                else
                  match dlookup "inspection" sensors with
                  | none => none
                  | some iv =>
                    if iv = .VStr "FAIL" then some "Normal_KG:Inspection_Fail"
                    else some "Normal_KG:Operation_Normal"

/-- A well-formed five-entry sensor mapping, as `run_cycle` builds it. -/
def mkSensors (t v p : ℚ) (pos : Position) (insp : String) : Dict :=
  [("spindle_temp", .VNum t), ("vibration", .VNum v), ("power_draw", .VNum p),
   ("position", .VPos pos), ("inspection", .VStr insp)]

theorem getNum_mk_spindle (t v p : ℚ) (pos : Position) (insp : String) :
    getNum (mkSensors t v p pos insp) "spindle_temp" = some t := rfl

theorem getNum_mk_vibration (t v p : ℚ) (pos : Position) (insp : String) :
    getNum (mkSensors t v p pos insp) "vibration" = some v := rfl

theorem getNum_mk_power (t v p : ℚ) (pos : Position) (insp : String) :
    getNum (mkSensors t v p pos insp) "power_draw" = some p := rfl

theorem getPos_mk (t v p : ℚ) (pos : Position) (insp : String) :
    getPos (mkSensors t v p pos insp) "position" = some pos := rfl

theorem dlookup_mk_inspection (t v p : ℚ) (pos : Position) (insp : String) :
    dlookup "inspection" (mkSensors t v p pos insp) = some (.VStr insp) := rfl

example : classify_state (mkSensors 95 1 410 ⟨50, 30, 10⟩ "PASS") [("tool_id", .VNum 2)] =
    some "Cyberattack_KG:Likely_Glitch/Firmware" := by
  simp only [classify_state, getNum_mk_spindle, getNum_mk_vibration, getNum_mk_power,
    getPos_mk, dlookup_mk_inspection, tool_change_cond, truthy, dlookup, max_dev,
    EXPECTED_POSITION, TOLERANCE_WARNING, TOLERANCE_CRITICAL]
  norm_num

example : classify_state (mkSensors 60 0.5 250 ⟨50, 30, 10⟩ "PASS") [("tool_id", .VNum 4)] =
    some "Maintenance_KG:Tool_Change" := by
  simp only [classify_state, getNum_mk_spindle, getNum_mk_vibration, getNum_mk_power,
    getPos_mk, dlookup_mk_inspection, tool_change_cond, truthy, dlookup, max_dev,
    EXPECTED_POSITION, TOLERANCE_WARNING, TOLERANCE_CRITICAL]
  norm_num

example : classify_state (mkSensors 70 1 300 ⟨61, 30, 10⟩ "PASS") [] =
    some "Cyberattack_KG:Major_Position_Change" := by
  simp only [classify_state, getNum_mk_spindle, getNum_mk_vibration, getNum_mk_power,
    getPos_mk, dlookup_mk_inspection, tool_change_cond, truthy, dlookup, max_dev,
    EXPECTED_POSITION, TOLERANCE_WARNING, TOLERANCE_CRITICAL]
  norm_num

example : classify_state (mkSensors 60 0.5 250 ⟨50, 30, 10⟩ "FAIL") [("tool_id", .VNum 1)] =
    some "Normal_KG:Inspection_Fail" := by
  have htc : tool_change_cond [("tool_id", Value.VNum 1)] = false := by decide
  simp only [classify_state, getNum_mk_spindle, getNum_mk_vibration, getNum_mk_power,
    getPos_mk, dlookup_mk_inspection, htc, max_dev, EXPECTED_POSITION,
    TOLERANCE_WARNING, TOLERANCE_CRITICAL]
  norm_num

/-! ### C2: behaviour at `spindle_temp = 90.0` -/

/-- C2 counterexample: at `spindle_temp = 90.0` the FIRST branch
(`>75 and <=90`, inclusive upper bound) matches, so `classify_state`
returns `Maintenance_KG:Possible_Overheating` — the label the claim says
such an input can never yield. -/
theorem spindle_90_counterexample :
    classify_state (mkSensors 90 1 300 ⟨50, 30, 10⟩ "PASS") [] =
      some "Maintenance_KG:Possible_Overheating" := by
  simp only [classify_state, getNum_mk_spindle]
  norm_num

/-- C2 amended: any input whose `spindle_temp` field reads exactly `90.0`
is classified by branch 1 of the cascade (its upper bound is inclusive),
yielding `Maintenance_KG:Possible_Overheating`; branch 2 (`> 90`) is
never reached for this value. -/
theorem spindle_90_branch1 (sensors machine : Dict)
    (ht : getNum sensors "spindle_temp" = some 90) :
    classify_state sensors machine = some "Maintenance_KG:Possible_Overheating" := by
  simp only [classify_state, ht]
  norm_num

theorem spindle_90_branch1_witness :
    classify_state (mkSensors 90 2 300 ⟨50, 30, 10⟩ "PASS") [] =
      some "Maintenance_KG:Possible_Overheating" :=
  spindle_90_branch1 (mkSensors 90 2 300 ⟨50, 30, 10⟩ "PASS") [] rfl

/-! ### C7: behaviour at `vibration = 1.5` -/

/-- C7: an input whose `vibration` field reads exactly `1.5` never
produces `Cyberattack_KG:Possible_Vibration_Sabotage`: rule 3's lower
bound (`vibration > 1.5`) is strict, so the input falls through. -/
theorem vibration_boundary_no_sabotage (sensors machine : Dict)
    (hv : getNum sensors "vibration" = some 1.5) :
    classify_state sensors machine ≠ some "Cyberattack_KG:Possible_Vibration_Sabotage" := by
  intro h
  rcases hst : getNum sensors "spindle_temp" with _ | t
  · simp only [classify_state, hst] at h
    exact Option.noConfusion h
  simp only [classify_state, hst, hv] at h
  by_cases h0 : 75 < t ∧ t ≤ 90
  · rw [if_pos h0] at h
    exact absurd (Option.some.inj h) (by decide)
  rw [if_neg h0] at h
  by_cases h1 : 90 < t
  · rw [if_pos h1] at h
    rcases hpw : getNum sensors "power_draw" with _ | p
    · simp only [hpw] at h
      exact Option.noConfusion h
    simp only [hpw] at h
    by_cases g1 : 350 < p ∧ p < 400
    · rw [if_pos g1] at h
      exact absurd (Option.some.inj h) (by decide)
    rw [if_neg g1] at h
    by_cases g2 : 400 ≤ p
    · rw [if_pos g2] at h
      exact absurd (Option.some.inj h) (by decide)
    · rw [if_neg g2] at h
      exact absurd (Option.some.inj h) (by decide)
  rw [if_neg h1] at h
  rw [if_neg (by norm_num : ¬((1.5 : ℚ) < 1.5 ∧ (1.5 : ℚ) ≤ 3.5))] at h
  rw [if_neg (by norm_num : ¬((3.5 : ℚ) < 1.5))] at h
  rcases hpw : getNum sensors "power_draw" with _ | p
  · simp only [hpw] at h
    exact Option.noConfusion h
  simp only [hpw] at h
  by_cases g1 : 350 ≤ p ∧ p < 400
  · rw [if_pos g1] at h
    exact absurd (Option.some.inj h) (by decide)
  rw [if_neg g1] at h
  by_cases g2 : 400 ≤ p
  · rw [if_pos g2] at h
    exact absurd (Option.some.inj h) (by decide)
  rw [if_neg g2] at h
  rcases hps : getPos sensors "position" with _ | pos
  · simp only [hps] at h
    exact Option.noConfusion h
  simp only [hps] at h
  by_cases d1 : TOLERANCE_WARNING < max_dev pos ∧ max_dev pos ≤ TOLERANCE_CRITICAL
  · rw [if_pos d1] at h
    exact absurd (Option.some.inj h) (by decide)
  rw [if_neg d1] at h
  by_cases d2 : TOLERANCE_CRITICAL < max_dev pos
  · rw [if_pos d2] at h
    exact absurd (Option.some.inj h) (by decide)
  rw [if_neg d2] at h
  by_cases d3 : tool_change_cond machine = true
  · rw [if_pos d3] at h
    exact absurd (Option.some.inj h) (by decide)
  rw [if_neg d3] at h
  rcases hin : dlookup "inspection" sensors with _ | iv
  · simp only [hin] at h
    exact Option.noConfusion h
  simp only [hin] at h
  by_cases d4 : iv = Value.VStr "FAIL"
  · rw [if_pos d4] at h
    exact absurd (Option.some.inj h) (by decide)
  · rw [if_neg d4] at h
    exact absurd (Option.some.inj h) (by decide)

theorem vibration_boundary_no_sabotage_witness :
    classify_state (mkSensors 60 1.5 250 ⟨50, 30, 10⟩ "PASS") [] ≠
      some "Cyberattack_KG:Possible_Vibration_Sabotage" :=
  vibration_boundary_no_sabotage (mkSensors 60 1.5 250 ⟨50, 30, 10⟩ "PASS") [] rfl

/-! ### C1: totality and first-match semantics of the cascade -/

/-- Predicate of the i-th rule of the documented 10-rule cascade
(0-indexed), taken from the source's conditions; rules 2 and 7 of the
spec (indices 1 and 6) are compound, their overall predicate being the
guard that enters the compound branch. -/
def ruleMatches (i : ℕ) (t v p : ℚ) (pos : Position) (iv : Value) (machine : Dict) : Prop :=
  match i with
  | 0 => 75 < t ∧ t ≤ 90
  | 1 => 90 < t
  | 2 => 1.5 < v ∧ v ≤ 3.5
  | 3 => 3.5 < v
  | 4 => 350 ≤ p ∧ p < 400
  | 5 => 400 ≤ p
  | 6 => TOLERANCE_WARNING < max_dev pos
  | 7 => tool_change_cond machine = true
  | 8 => iv = .VStr "FAIL"
  | _ => True

/-- Label emitted by the i-th rule (for the compound rules 2 and 7 of
the spec, the label their sub-branches select). -/
def ruleLabel (i : ℕ) (p : ℚ) (pos : Position) : String :=
  match i with
  | 0 => "Maintenance_KG:Possible_Overheating"
  | 1 =>
    if 350 < p ∧ p < 400 then "Cyberattack_KG:Possible_Glitch/Firmware"
    else if 400 ≤ p then "Cyberattack_KG:Likely_Glitch/Firmware"
    else "Maintenance_KG:Spindle_Overheat"
  | 2 => "Cyberattack_KG:Possible_Vibration_Sabotage"
  | 3 => "Cyberattack_KG:Likely_Vibration_Sabotage"
  | 4 => "PowerDraw_KG:Possible_Elevated_Load"
  | 5 => "PowerDraw_KG:High_Power_Consumption"
  | 6 =>
    if max_dev pos ≤ TOLERANCE_CRITICAL then "Maintenance_KG:Minor_Position_Drift"
    else "Cyberattack_KG:Major_Position_Change"
  | 7 => "Maintenance_KG:Tool_Change"
  | 8 => "Normal_KG:Inspection_Fail"
  | _ => "Normal_KG:Operation_Normal"

/-- The documented classification labels of the cascade. -/
def cascadeLabels : List String :=
  ["Maintenance_KG:Possible_Overheating", "Cyberattack_KG:Possible_Glitch/Firmware",
   "Cyberattack_KG:Likely_Glitch/Firmware", "Maintenance_KG:Spindle_Overheat",
   "Cyberattack_KG:Possible_Vibration_Sabotage", "Cyberattack_KG:Likely_Vibration_Sabotage",
   "PowerDraw_KG:Possible_Elevated_Load", "PowerDraw_KG:High_Power_Consumption",
   "Maintenance_KG:Minor_Position_Drift", "Cyberattack_KG:Major_Position_Change",
   "Maintenance_KG:Tool_Change", "Normal_KG:Inspection_Fail", "Normal_KG:Operation_Normal"]

set_option maxHeartbeats 1000000 in
/-- C1: on every well-formed input, `classify_state` returns exactly one
documented label, namely the label of the FIRST rule of the 10-rule
cascade whose predicate holds (no earlier rule matches). -/
theorem classify_first_match (sensors machine : Dict) (t v p : ℚ) (pos : Position) (iv : Value)
    (ht : getNum sensors "spindle_temp" = some t)
    (hv : getNum sensors "vibration" = some v)
    (hp : getNum sensors "power_draw" = some p)
    (hpos : getPos sensors "position" = some pos)
    (hiv : dlookup "inspection" sensors = some iv) :
    ∃ i, i < 10 ∧ ruleMatches i t v p pos iv machine ∧
      (∀ k, k < i → ¬ ruleMatches k t v p pos iv machine) ∧
      classify_state sensors machine = some (ruleLabel i p pos) ∧
      ruleLabel i p pos ∈ cascadeLabels := by
  by_cases h0 : 75 < t ∧ t ≤ 90
  · refine ⟨0, by norm_num, h0, fun k hk => absurd hk (by omega), ?_,
      by simp only [ruleLabel]; decide⟩
    simp only [classify_state, ht]
    rw [if_pos h0]
    rfl
  by_cases h1 : 90 < t
  · refine ⟨1, by norm_num, h1, ?_, ?_, ?_⟩
    · intro k hk
      interval_cases k
      · exact h0
    · simp only [classify_state, ht, hp]
      rw [if_neg h0, if_pos h1]
      simp only [ruleLabel]
      split_ifs <;> rfl
    · simp only [ruleLabel]
      split_ifs <;> decide
  by_cases h2 : 1.5 < v ∧ v ≤ 3.5
  · refine ⟨2, by norm_num, h2, ?_, ?_, by simp only [ruleLabel]; decide⟩
    · intro k hk
      interval_cases k
      · exact h0
      · exact h1
    · simp only [classify_state, ht, hv]
      rw [if_neg h0, if_neg h1, if_pos h2]
      rfl
  by_cases h3 : 3.5 < v
  · refine ⟨3, by norm_num, h3, ?_, ?_, by simp only [ruleLabel]; decide⟩
    · intro k hk
      interval_cases k
      · exact h0
      · exact h1
      · exact h2
    · simp only [classify_state, ht, hv]
      rw [if_neg h0, if_neg h1, if_neg h2, if_pos h3]
      rfl
  by_cases h4 : 350 ≤ p ∧ p < 400
  · refine ⟨4, by norm_num, h4, ?_, ?_, by simp only [ruleLabel]; decide⟩
    · intro k hk
      interval_cases k
      · exact h0
      · exact h1
      · exact h2
      · exact h3
    · simp only [classify_state, ht, hv, hp]
      rw [if_neg h0, if_neg h1, if_neg h2, if_neg h3, if_pos h4]
      rfl
  by_cases h5 : 400 ≤ p
  · refine ⟨5, by norm_num, h5, ?_, ?_, by simp only [ruleLabel]; decide⟩
    · intro k hk
      interval_cases k
      · exact h0
      · exact h1
      · exact h2
      · exact h3
      · exact h4
    · simp only [classify_state, ht, hv, hp]
      rw [if_neg h0, if_neg h1, if_neg h2, if_neg h3, if_neg h4, if_pos h5]
      rfl
  by_cases h6 : TOLERANCE_WARNING < max_dev pos
  · refine ⟨6, by norm_num, h6, ?_, ?_, ?_⟩
    · intro k hk
      interval_cases k
      · exact h0
      · exact h1
      · exact h2
      · exact h3
      · exact h4
      · exact h5
    · simp only [classify_state, ht, hv, hp, hpos]
      rw [if_neg h0, if_neg h1, if_neg h2, if_neg h3, if_neg h4, if_neg h5]
      simp only [ruleLabel]
      by_cases hc : max_dev pos ≤ TOLERANCE_CRITICAL
      · rw [if_pos ⟨h6, hc⟩, if_pos hc]
      · rw [if_neg (fun hh => hc hh.2), if_neg hc, if_pos (lt_of_not_le hc)]
    · simp only [ruleLabel]
      split_ifs <;> decide
  by_cases h7 : tool_change_cond machine = true
  · refine ⟨7, by norm_num, h7, ?_, ?_, by simp only [ruleLabel]; decide⟩
    · intro k hk
      interval_cases k
      · exact h0
      · exact h1
      · exact h2
      · exact h3
      · exact h4
      · exact h5
      · exact h6
    · simp only [classify_state, ht, hv, hp, hpos]
      rw [if_neg h0, if_neg h1, if_neg h2, if_neg h3, if_neg h4, if_neg h5,
        if_neg (fun hh : _ ∧ _ => h6 hh.1),
        if_neg (fun hh => h6 (lt_trans (by norm_num [TOLERANCE_WARNING, TOLERANCE_CRITICAL]) hh)),
        if_pos h7]
      rfl
  by_cases h8 : iv = Value.VStr "FAIL"
  · refine ⟨8, by norm_num, h8, ?_, ?_, by simp only [ruleLabel]; decide⟩
    · intro k hk
      interval_cases k
      · exact h0
      · exact h1
      · exact h2
      · exact h3
      · exact h4
      · exact h5
      · exact h6
      · exact h7
    · simp only [classify_state, ht, hv, hp, hpos, hiv]
      rw [if_neg h0, if_neg h1, if_neg h2, if_neg h3, if_neg h4, if_neg h5,
        if_neg (fun hh : _ ∧ _ => h6 hh.1),
        if_neg (fun hh => h6 (lt_trans (by norm_num [TOLERANCE_WARNING, TOLERANCE_CRITICAL]) hh)),
        if_neg h7, if_pos h8]
      rfl
  · refine ⟨9, by norm_num, trivial, ?_, ?_, by simp only [ruleLabel]; decide⟩
    · intro k hk
      interval_cases k
      · exact h0
      · exact h1
      · exact h2
      · exact h3
      · exact h4
      · exact h5
      · exact h6
      · exact h7
      · exact h8
    · simp only [classify_state, ht, hv, hp, hpos, hiv]
      rw [if_neg h0, if_neg h1, if_neg h2, if_neg h3, if_neg h4, if_neg h5,
        if_neg (fun hh : _ ∧ _ => h6 hh.1),
        if_neg (fun hh => h6 (lt_trans (by norm_num [TOLERANCE_WARNING, TOLERANCE_CRITICAL]) hh)),
        if_neg h7, if_neg h8]
      rfl

theorem classify_first_match_witness :
    ∃ i, i < 10 ∧ ruleMatches i 80 1 300 ⟨50, 30, 10⟩ (Value.VStr "PASS") [] ∧
      (∀ k, k < i → ¬ ruleMatches k 80 1 300 ⟨50, 30, 10⟩ (Value.VStr "PASS") []) ∧
      classify_state (mkSensors 80 1 300 ⟨50, 30, 10⟩ "PASS") [] =
        some (ruleLabel i 300 ⟨50, 30, 10⟩) ∧
      ruleLabel i 300 ⟨50, 30, 10⟩ ∈ cascadeLabels :=
  classify_first_match (mkSensors 80 1 300 ⟨50, 30, 10⟩ "PASS") [] 80 1 300 ⟨50, 30, 10⟩
    (Value.VStr "PASS") rfl rfl rfl rfl rfl

/-! ### C9: rules 1-6 never touch `position` or `inspection` -/

/-- C9: when one of the first six rules' predicates holds, the classifier
returns a label using only `spindle_temp`, `vibration` and `power_draw`;
the `position` and `inspection` entries are never accessed, so they may
be absent (or ill-typed) without an error. -/
theorem classify_early_rules_total (sensors machine : Dict) (t v p : ℚ)
    (ht : getNum sensors "spindle_temp" = some t)
    (hv : getNum sensors "vibration" = some v)
    (hp : getNum sensors "power_draw" = some p)
    (hmatch : (75 < t ∧ t ≤ 90) ∨ 90 < t ∨ (1.5 < v ∧ v ≤ 3.5) ∨ 3.5 < v ∨
      (350 ≤ p ∧ p < 400) ∨ 400 ≤ p) :
    ∃ r, classify_state sensors machine = some r := by
  simp only [classify_state, ht, hv, hp]
  by_cases h0 : 75 < t ∧ t ≤ 90
  · exact ⟨_, if_pos h0⟩
  rw [if_neg h0]
  by_cases h1 : 90 < t
  · rw [if_pos h1]
    by_cases g1 : 350 < p ∧ p < 400
    · exact ⟨_, if_pos g1⟩
    rw [if_neg g1]
    by_cases g2 : 400 ≤ p
    · exact ⟨_, if_pos g2⟩
    · exact ⟨_, if_neg g2⟩
  rw [if_neg h1]
  by_cases h2 : 1.5 < v ∧ v ≤ 3.5
  · exact ⟨_, if_pos h2⟩
  rw [if_neg h2]
  by_cases h3 : 3.5 < v
  · exact ⟨_, if_pos h3⟩
  rw [if_neg h3]
  by_cases h4 : 350 ≤ p ∧ p < 400
  · exact ⟨_, if_pos h4⟩
  rw [if_neg h4]
  by_cases h5 : 400 ≤ p
  · exact ⟨_, if_pos h5⟩
  · rcases hmatch with hh | hh | hh | hh | hh | hh
    exacts [absurd hh h0, absurd hh h1, absurd hh h2, absurd hh h3, absurd hh h4, absurd hh h5]

theorem classify_early_rules_total_witness :
    ∃ r, classify_state
      [("spindle_temp", Value.VNum 80), ("vibration", Value.VNum 1),
       ("power_draw", Value.VNum 300)] [] = some r :=
  classify_early_rules_total
    [("spindle_temp", Value.VNum 80), ("vibration", Value.VNum 1),
     ("power_draw", Value.VNum 300)] [] 80 1 300 rfl rfl rfl (Or.inl (by norm_num))

/-! ### C4: the tool-change rule and Python truthiness of `tool_id` -/

/-- C4 counterexample: with no earlier rule matching and `tool_id = 0`
(a value not in `{1, 2, 3}`), the classifier does NOT return
`Maintenance_KG:Tool_Change`: Python's `machine.get("tool_id") and ...`
is falsy for `0`, so the rule is skipped and the default fires. -/
theorem tool_id_zero_counterexample :
    classify_state (mkSensors 60 0.5 250 ⟨50, 30, 10⟩ "PASS") [("tool_id", Value.VNum 0)] =
        some "Normal_KG:Operation_Normal" ∧
      "Normal_KG:Operation_Normal" ≠ "Maintenance_KG:Tool_Change" := by
  constructor
  · have htc : tool_change_cond [("tool_id", Value.VNum 0)] = false := by decide
    simp only [classify_state, getNum_mk_spindle, getNum_mk_vibration, getNum_mk_power,
      getPos_mk, dlookup_mk_inspection, htc, max_dev, EXPECTED_POSITION,
      TOLERANCE_WARNING, TOLERANCE_CRITICAL]
    norm_num
    decide
  · decide

set_option maxHeartbeats 1000000 in
/-- C4 amended: when none of rules 1-7 matches and `machine_data` holds a
`tool_id` whose value is a truthy number (non-zero) outside `{1, 2, 3}`,
`classify_state` returns `Maintenance_KG:Tool_Change`; the value `0`,
although outside `{1, 2, 3}`, is excluded because the source tests the
value's truthiness, not its presence. -/
theorem tool_change_truthy (sensors machine : Dict) (t v p : ℚ) (pos : Position) (q : ℚ)
    (ht : getNum sensors "spindle_temp" = some t)
    (hv : getNum sensors "vibration" = some v)
    (hp : getNum sensors "power_draw" = some p)
    (hpos : getPos sensors "position" = some pos)
    (h0 : ¬(75 < t ∧ t ≤ 90)) (h1 : ¬90 < t)
    (h2 : ¬(1.5 < v ∧ v ≤ 3.5)) (h3 : ¬3.5 < v)
    (h4 : ¬(350 ≤ p ∧ p < 400)) (h5 : ¬400 ≤ p)
    (h6 : ¬TOLERANCE_WARNING < max_dev pos)
    (hq : dlookup "tool_id" machine = some (Value.VNum q))
    (hq0 : q ≠ 0) (hq1 : q ≠ 1) (hq2 : q ≠ 2) (hq3 : q ≠ 3) :
    classify_state sensors machine = some "Maintenance_KG:Tool_Change" := by
  have htc : tool_change_cond machine = true := by
    simp only [tool_change_cond, hq]
    simp [truthy, hq0, hq1, hq2, hq3]
  simp only [classify_state, ht, hv, hp, hpos]
  rw [if_neg h0, if_neg h1, if_neg h2, if_neg h3, if_neg h4, if_neg h5,
    if_neg (fun hh : _ ∧ _ => h6 hh.1),
    if_neg (fun hh => h6 (lt_trans (by norm_num [TOLERANCE_WARNING, TOLERANCE_CRITICAL]) hh)),
    if_pos htc]

theorem tool_change_truthy_witness :
    classify_state (mkSensors 60 0.5 250 ⟨50, 30, 10⟩ "PASS") [("tool_id", Value.VNum 4)] =
      some "Maintenance_KG:Tool_Change" :=
  tool_change_truthy (mkSensors 60 0.5 250 ⟨50, 30, 10⟩ "PASS") [("tool_id", Value.VNum 4)]
    60 0.5 250 ⟨50, 30, 10⟩ 4 rfl rfl rfl rfl
    (by norm_num) (by norm_num) (by norm_num) (by norm_num) (by norm_num) (by norm_num)
    (by norm_num [max_dev, EXPECTED_POSITION, TOLERANCE_WARNING]) rfl
    (by norm_num) (by norm_num) (by norm_num) (by norm_num)

/-! ### C3: KG triple attachment in `send_to_KG` -/

/-- A row of a KG reference table: `{relationship, target_entity}`
(as built by `load_kg_csv`). -/
structure KGEntry where
  relationship : String
  target_entity : String
deriving DecidableEq

/-- A KG reference table: label → entry; empty when the CSV was missing. -/
abbrev KGTable := List (String × KGEntry)

/-- Lookup `mapping.get(classification)`. -/
def kgLookup (k : String) : KGTable → Option KGEntry
  | [] => none
  | (k₁, e) :: t => if k₁ = k then some e else kgLookup k t

/-- Character-list prefix test (for Python's substring operator). -/
def isPrefixL : List Char → List Char → Bool
  | [], _ => true
  | _ :: _, [] => false
  | a :: as, b :: bs => a == b && isPrefixL as bs

/-- Substring occurrence at any offset. -/
def infixAt (needle : List Char) : List Char → Bool
  | [] => isPrefixL needle []
  | b :: bs => isPrefixL needle (b :: bs) || infixAt needle bs

/-- Python's `needle in hay` on strings. -/
def pyIn (needle hay : String) : Bool := infixAt needle.toList hay.toList

/-- The triple selection of `send_to_KG`: substring-match the category
name in the label, then `.get` the label from that category's table; the
source loads no PowerDraw table and has no PowerDraw branch, so
everything else falls through to `None`. -/
def send_to_KG_triple (classification : String)
    (maintenance_map normal_map cyberattack_map : KGTable) : Option KGEntry :=
  if pyIn "Maintenance_KG" classification then kgLookup classification maintenance_map
  else if pyIn "Normal_KG" classification then kgLookup classification normal_map
  else if pyIn "Cyberattack_KG" classification then kgLookup classification cyberattack_map
  else none

/-- C3: for every emitted label, the attached triple is exactly the
`.get` of that label from its own category's table (so a populated table
containing the label yields its entry, an empty or missing table yields
`None`, and a miss is never an error); the PowerDraw labels always get
`None` because the source loads no PowerDraw table. -/
theorem kg_triple_per_category (maintenance_map normal_map cyberattack_map : KGTable) :
    (∀ l ∈ ["Maintenance_KG:Possible_Overheating", "Maintenance_KG:Spindle_Overheat",
        "Maintenance_KG:Minor_Position_Drift", "Maintenance_KG:Tool_Change"],
      send_to_KG_triple l maintenance_map normal_map cyberattack_map =
        kgLookup l maintenance_map) ∧
    (∀ l ∈ ["Normal_KG:Inspection_Fail", "Normal_KG:Operation_Normal"],
      send_to_KG_triple l maintenance_map normal_map cyberattack_map = kgLookup l normal_map) ∧
    (∀ l ∈ ["Cyberattack_KG:Possible_Glitch/Firmware", "Cyberattack_KG:Likely_Glitch/Firmware",
        "Cyberattack_KG:Possible_Vibration_Sabotage", "Cyberattack_KG:Likely_Vibration_Sabotage",
        "Cyberattack_KG:Major_Position_Change"],
      send_to_KG_triple l maintenance_map normal_map cyberattack_map =
        kgLookup l cyberattack_map) ∧
    (∀ l ∈ ["PowerDraw_KG:Possible_Elevated_Load", "PowerDraw_KG:High_Power_Consumption"],
      send_to_KG_triple l maintenance_map normal_map cyberattack_map = none) ∧
    (∀ l : String, kgLookup l ([] : KGTable) = none) := by
  refine ⟨?_, ?_, ?_, ?_, fun l => rfl⟩ <;>
    (intro l hl; fin_cases hl) <;> rfl

theorem kg_triple_per_category_witness :
    send_to_KG_triple "Maintenance_KG:Tool_Change"
        [("Maintenance_KG:Tool_Change", ⟨"requires", "Tool_Replacement"⟩)] [] [] =
      some ⟨"requires", "Tool_Replacement"⟩ := by
  rw [(kg_triple_per_category
    [("Maintenance_KG:Tool_Change", ⟨"requires", "Tool_Replacement"⟩)] [] []).1
    "Maintenance_KG:Tool_Change" (by decide)]
  rfl

/-! ### C5: the automatic tool changer -/

/-- State of `AutomaticToolChanger`: the configured tool list and the
currently mounted tool. -/
structure AutomaticToolChanger where
  tools : List Int
  current_tool : Int

/-- Constructor `__init__`: `self.current_tool = tools[0]` (indexing requires the
configured list to be non-empty). -/
def atcInit (tools : List Int) (h : tools ≠ []) : AutomaticToolChanger :=
  ⟨tools, tools.head h⟩

/-- Method `check_and_change_tool(cycle_id)`: on every 10th cycle pick a tool
from the list (`random.choice` modelled by an arbitrary index `r`),
otherwise keep the current tool; the (new) current tool is returned. -/
def check_and_change_tool (atc : AutomaticToolChanger) (cycle_id : ℤ) (r : ℕ) :
    AutomaticToolChanger × Int :=
  if cycle_id % 10 = 0 then
    let nt := atc.tools.getD (r % atc.tools.length) 0
    (⟨atc.tools, nt⟩, nt)
  else (atc, atc.current_tool)

/-- A sequence of `check_and_change_tool` calls (cycle id and random
index per call). -/
def runATC (atc : AutomaticToolChanger) : List (ℤ × ℕ) → AutomaticToolChanger
  | [] => atc
  | (c, r) :: rest => runATC (check_and_change_tool atc c r).1 rest

theorem check_tools_eq (atc : AutomaticToolChanger) (c : ℤ) (r : ℕ) :
    (check_and_change_tool atc c r).1.tools = atc.tools := by
  unfold check_and_change_tool
  split_ifs <;> rfl

theorem check_mem (atc : AutomaticToolChanger) (c : ℤ) (r : ℕ) (hne : atc.tools ≠ [])
    (hmem : atc.current_tool ∈ atc.tools) :
    (check_and_change_tool atc c r).1.current_tool ∈ atc.tools := by
  unfold check_and_change_tool
  split_ifs
  · have hlen : r % atc.tools.length < atc.tools.length :=
      Nat.mod_lt _ (List.length_pos.mpr hne)
    simp only
    rw [List.getD_eq_getElem _ _ hlen]
    exact List.getElem_mem hlen
  · exact hmem

theorem runATC_inv (tools : List Int) (calls : List (ℤ × ℕ)) :
    ∀ atc : AutomaticToolChanger, atc.tools = tools → atc.current_tool ∈ tools →
      (runATC atc calls).tools = tools ∧ (runATC atc calls).current_tool ∈ tools := by
  induction calls with
  | nil => exact fun atc h1 h2 => ⟨h1, h2⟩
  | cons hd tl ih =>
    rcases hd with ⟨c, r⟩
    intro atc h1 h2
    have hne : atc.tools ≠ [] := by
      rw [h1]
      exact List.ne_nil_of_mem h2
    rw [runATC]
    have hm := check_mem atc c r hne (by rw [h1]; exact h2)
    rw [h1] at hm
    exact ih _ ((check_tools_eq atc c r).trans h1) hm

/-- C5: the tool changer starts on the first configured tool; calls with
`cycle_id` not a multiple of 10 leave the state untouched and return the
current tool; calls on a multiple of 10 install some member of the
configured list; hence after any sequence of calls the mounted tool is a
member of the (non-empty) configured list, which itself never changes. -/
theorem atc_invariant (tools : List Int) (h : tools ≠ []) :
    (atcInit tools h).current_tool = tools.head h ∧
    (∀ (atc : AutomaticToolChanger) (c : ℤ) (r : ℕ), ¬c % 10 = 0 →
      check_and_change_tool atc c r = (atc, atc.current_tool)) ∧
    (∀ (atc : AutomaticToolChanger) (c : ℤ) (r : ℕ), c % 10 = 0 → atc.tools = tools →
      (check_and_change_tool atc c r).1.current_tool ∈ tools) ∧
    (∀ calls : List (ℤ × ℕ),
      (runATC (atcInit tools h) calls).tools = tools ∧
        (runATC (atcInit tools h) calls).current_tool ∈ tools) := by
  refine ⟨rfl, ?_, ?_, ?_⟩
  · intro atc c r hc
    unfold check_and_change_tool
    rw [if_neg hc]
  · intro atc c r hc htl
    have hne : atc.tools ≠ [] := by
      rw [htl]
      exact h
    unfold check_and_change_tool
    rw [if_pos hc]
    show atc.tools.getD (r % atc.tools.length) 0 ∈ tools
    have hlen : r % atc.tools.length < atc.tools.length :=
      Nat.mod_lt _ (List.length_pos.mpr hne)
    rw [← htl, List.getD_eq_getElem _ _ hlen]
    exact List.getElem_mem hlen
  · intro calls
    exact runATC_inv tools calls (atcInit tools h) rfl (List.head_mem h)

theorem atc_invariant_witness :
    (runATC (atcInit [1, 2, 3, 4, 5] (by decide)) [(1, 0), (10, 7), (12, 2)]).current_tool
      ∈ [1, 2, 3, 4, 5] :=
  ((atc_invariant [1, 2, 3, 4, 5] (by decide)).2.2.2 [(1, 0), (10, 7), (12, 2)]).2

/-! ### C6: the "real" data-source mode -/

/-- Embeds `read_real_data()`: the fixed substitute bundle (which also carries
two machine-style fields the engine never reads back). -/
def read_real_data : Dict :=
  [("operation", .VStr "cutting"), ("tool_id", .VNum 2),
   ("spindle_temp", .VNum 82.5), ("vibration", .VNum 1.1), ("power_draw", .VNum 310.2),
   ("position", .VPos ⟨50, 30, 10⟩), ("inspection", .VStr "PASS")]

/-- Embeds `get_data_source()`: `MODE == "REAL"` yields the substitute data,
any other mode yields `None`. -/
def get_data_source (mode : String) : Option Dict :=
  if mode = "REAL" then some read_real_data else none

/-- Embeds `run_cycle(cycle_id)` up to message assembly: returns the merged
`machine_data` and the `sensor_readings` dict. Machines are modelled by
their per-cycle operation results; live sensor readings by a
name-to-reading list (both stand for the resolved random draws); `none`
models a KeyError while building the substitute readings. -/
def run_cycle (mode : String) (machines : List (ℤ → Dict))
    (liveReads : List (String × Value)) (cycle_id : ℤ) : Option (Dict × Dict) :=
  let machine_data := mergeDicts (machines.map (fun m => m cycle_id))
  match get_data_source mode with
  | some real =>
    if real.isEmpty then some (machine_data, dInsertAll [] liveReads)
    else
      match dlookup "spindle_temp" real, dlookup "vibration" real, dlookup "power_draw" real,
        dlookup "position" real, dlookup "inspection" real with
      | some st, some vb, some pd, some ps, some iv =>
        some (machine_data,
          [("spindle_temp", st), ("vibration", vb), ("power_draw", pd),
           ("position", ps), ("inspection", iv)])
      | _, _, _, _, _ => none
  | none => some (machine_data, dInsertAll [] liveReads)

/-- C6: in "REAL" mode, `run_cycle` uses exactly the fixed substitute
bundle as the five sensor readings for the cycle, while the merged
`machine_data` (every configured machine invoked at this `cycle_id`) is
identical to what simulate mode produces. -/
theorem real_mode_substitute (machines : List (ℤ → Dict))
    (liveReads : List (String × Value)) (cycle_id : ℤ) :
    run_cycle "REAL" machines liveReads cycle_id =
      some (mergeDicts (machines.map (fun m => m cycle_id)),
        [("spindle_temp", .VNum 82.5), ("vibration", .VNum 1.1), ("power_draw", .VNum 310.2),
         ("position", .VPos ⟨50, 30, 10⟩), ("inspection", .VStr "PASS")]) ∧
    (run_cycle "REAL" machines liveReads cycle_id).map Prod.fst =
      (run_cycle "SIM" machines liveReads cycle_id).map Prod.fst :=
  ⟨rfl, rfl⟩

/-! ### C8: no field-name collisions across the four machine variants -/

/-- Embeds `CNCMill.perform_operation`: random operation plus the tool changer's
current tool. -/
def CNCMill_perform (op : String) (tool : ℚ) : Dict :=
  [("operation", .VStr op), ("tool_id", .VNum tool)]

/-- Embeds `RoboticArm.perform_operation`. -/
def RoboticArm_perform (task : String) : Dict :=
  [("robotic_arm_task", .VStr task)]

/-- Embeds `ConveyorBelt.perform_operation`: random station plus the
deterministic `part_id`. -/
def ConveyorBelt_perform (station : String) (cycle_id : ℤ) : Dict :=
  [("conveyor_position", .VStr station),
   ("part_id", .VStr ("PART-" ++ toString (1000 + cycle_id)))]

/-- Embeds `InspectionSystem.perform_operation`. -/
def InspectionSystem_perform (decision : String) (confidence : ℚ) : Dict :=
  [("inspection_result", .VStr decision), ("inspection_confidence", .VNum confidence)]

/-- C8: for the default four machines the key sets of the operation
results are the fixed, pairwise disjoint sets
`{operation, tool_id}`, `{robotic_arm_task}`, `{conveyor_position,
part_id}`, `{inspection_result, inspection_confidence}`, so the
machine-data merge is plain concatenation: no field is lost for any
cycle and any random draws. -/
theorem machine_fields_no_collision (op : String) (tool : ℚ) (task station : String)
    (cycle_id : ℤ) (decision : String) (confidence : ℚ) :
    (CNCMill_perform op tool).map Prod.fst = ["operation", "tool_id"] ∧
    (RoboticArm_perform task).map Prod.fst = ["robotic_arm_task"] ∧
    (ConveyorBelt_perform station cycle_id).map Prod.fst = ["conveyor_position", "part_id"] ∧
    (InspectionSystem_perform decision confidence).map Prod.fst =
      ["inspection_result", "inspection_confidence"] ∧
    ((∀ k ∈ (["operation", "tool_id"] : List String), k ∉ (["robotic_arm_task"] : List String) ∧
        k ∉ (["conveyor_position", "part_id"] : List String) ∧
        k ∉ (["inspection_result", "inspection_confidence"] : List String)) ∧
      (∀ k ∈ (["robotic_arm_task"] : List String),
        k ∉ (["conveyor_position", "part_id"] : List String) ∧
        k ∉ (["inspection_result", "inspection_confidence"] : List String)) ∧
      (∀ k ∈ (["conveyor_position", "part_id"] : List String),
        k ∉ (["inspection_result", "inspection_confidence"] : List String))) ∧
    mergeDicts [CNCMill_perform op tool, RoboticArm_perform task,
        ConveyorBelt_perform station cycle_id, InspectionSystem_perform decision confidence] =
      CNCMill_perform op tool ++ RoboticArm_perform task ++
        ConveyorBelt_perform station cycle_id ++ InspectionSystem_perform decision confidence :=
  ⟨rfl, rfl, rfl, rfl, by decide, rfl⟩

theorem machine_fields_no_collision_witness :
    mergeDicts [CNCMill_perform "cutting" 2, RoboticArm_perform "idle",
        ConveyorBelt_perform "Exit" 1, InspectionSystem_perform "PASS" 0.93] =
      CNCMill_perform "cutting" 2 ++ RoboticArm_perform "idle" ++
        ConveyorBelt_perform "Exit" 1 ++ InspectionSystem_perform "PASS" 0.93 :=
  (machine_fields_no_collision "cutting" 2 "idle" "Exit" 1 "PASS" 0.93).2.2.2.2.2

/-! ### C10: `SimulationMessage.to_json` merge order -/

/-- The payload of `to_json`: `{"cycle_id": ..., "timestamp": ...,
**machine, **sensors}` — fields inserted in exactly that order with
last-write-wins on duplicate keys. -/
def to_json_payload (cycle_id : ℤ) (timestamp : ℚ) (machine sensors : Dict) : Dict :=
  dInsertAll
    (dInsertAll [("cycle_id", .VNum (cycle_id : ℚ)), ("timestamp", .VNum timestamp)] machine)
    sensors

theorem dlookup_map_update (k : String) (v : Value) (d : Dict) :
    dlookup k (d.map (fun p => if p.1 = k then (k, v) else p)) =
      if (dlookup k d).isSome then some v else none := by
  induction d with
  | nil => rfl
  | cons hd tl ih =>
    rcases hd with ⟨k₁, v₁⟩
    simp only [List.map_cons]
    by_cases hk : k₁ = k
    · subst hk
      rw [if_pos rfl]
      simp [dlookup]
    · rw [if_neg hk]
      simp [dlookup, hk, ih]

theorem dlookup_map_update_ne (k k' : String) (v : Value) (d : Dict) (h : k ≠ k') :
    dlookup k' (d.map (fun p => if p.1 = k then (k, v) else p)) = dlookup k' d := by
  induction d with
  | nil => rfl
  | cons hd tl ih =>
    rcases hd with ⟨k₁, v₁⟩
    simp only [List.map_cons]
    by_cases hk : k₁ = k
    · subst hk
      rw [if_pos rfl]
      simp [dlookup, h, ih]
    · rw [if_neg hk]
      simp [dlookup, ih]

theorem dlookup_append (k : String) (d₁ d₂ : Dict) :
    dlookup k (d₁ ++ d₂) = (dlookup k d₁).or (dlookup k d₂) := by
  induction d₁ with
  | nil => rfl
  | cons hd tl ih =>
    rcases hd with ⟨k₁, v₁⟩
    by_cases hk : k₁ = k <;> simp [dlookup, hk, ih]

theorem dlookup_dUpdate_self (d : Dict) (k : String) (v : Value) :
    dlookup k (dUpdate d k v) = some v := by
  unfold dUpdate
  split_ifs with hs
  · rw [dlookup_map_update, if_pos hs]
  · have hnone : dlookup k d = none := by
      cases h' : dlookup k d
      · rfl
      · rw [h'] at hs
        exact absurd rfl hs
    rw [dlookup_append, hnone]
    simp [dlookup]

theorem dlookup_dUpdate_ne (d : Dict) (k k' : String) (v : Value) (h : k ≠ k') :
    dlookup k' (dUpdate d k v) = dlookup k' d := by
  unfold dUpdate
  split_ifs with hs
  · exact dlookup_map_update_ne k k' v d h
  · rw [dlookup_append]
    cases h' : dlookup k' d
    · simp [dlookup, h, Option.or]
    · rfl

theorem dlookup_dInsertAll_of_not_mem (k : String) (l : List (String × Value)) (d : Dict)
    (h : k ∉ l.map Prod.fst) : dlookup k (dInsertAll d l) = dlookup k d := by
  induction l generalizing d with
  | nil => rfl
  | cons hd tl ih =>
    rcases hd with ⟨k₁, v₁⟩
    simp only [List.map_cons, List.mem_cons] at h
    push_neg at h
    rw [dInsertAll, ih _ h.2, dlookup_dUpdate_ne _ _ _ _ (Ne.symm h.1)]

theorem dlookup_dInsertAll_mem (l : List (String × Value)) (k : String) (v : Value) (d : Dict)
    (hnodup : (l.map Prod.fst).Nodup) (hl : dlookup k l = some v) :
    dlookup k (dInsertAll d l) = some v := by
  induction l generalizing d with
  | nil => exact absurd hl (by simp [dlookup])
  | cons hd tl ih =>
    rcases hd with ⟨k₁, v₁⟩
    simp only [List.map_cons, List.nodup_cons] at hnodup
    rw [dInsertAll]
    by_cases hk : k₁ = k
    · subst hk
      rw [dlookup, if_pos rfl] at hl
      cases hl
      rw [dlookup_dInsertAll_of_not_mem _ _ _ hnodup.1, dlookup_dUpdate_self]
    · rw [dlookup, if_neg hk] at hl
      exact ih _ hnodup.2 hl

/-- C10: the emitted payload merges `cycle_id`, `timestamp`, the machine
fields and then the sensor fields with last-write-wins, so whenever a
sensor name collides with any earlier field, the record holds the
sensor's value for that key. -/
theorem payload_sensor_wins (cycle_id : ℤ) (timestamp : ℚ) (machine sensors : Dict)
    (k : String) (v : Value)
    (hnodup : (sensors.map Prod.fst).Nodup)
    (hv : dlookup k sensors = some v) :
    dlookup k (to_json_payload cycle_id timestamp machine sensors) = some v := by
  unfold to_json_payload
  exact dlookup_dInsertAll_mem _ _ _ _ hnodup hv

theorem payload_sensor_wins_witness :
    dlookup "power_draw"
        (to_json_payload 1 0 [("power_draw", Value.VNum 5)] [("power_draw", Value.VNum 7)]) =
      some (Value.VNum 7) :=
  payload_sensor_wins 1 0 [("power_draw", Value.VNum 5)] [("power_draw", Value.VNum 7)]
    "power_draw" (Value.VNum 7) (by decide) rfl
